import Mathlib

/-!
# Verification of the summa-solvency Merkle-sum-tree chip

A shallow embedding of the constraint-system core of the summa-solvency
repository: the four custom gates registered by
`MerkleSumTreeChip::configure`, the witness-assignment layout of
`merkle_prove_layer` and `enforce_less_than`, and the Poseidon
specification `MySpec` (`src/chips/merkle_sum_tree.rs`,
`src/chips/poseidon/spec.rs`).  All arithmetic is over the BN254 scalar
field `Fr`, embedded as `ZMod P` for the scalar-field prime `P`.
-/

/-- The BN254 (bn256) scalar-field modulus: the order of `Fr`, the field
over which every gate of the chip is defined. -/
def P : ℕ := 21888242871839275222246405745257275088548364400416034343698204186575808495617

/-- The prime field `Fr` of bn256, as used by
`halo2_proofs::halo2curves::bn256::Fr`. -/
abbrev Fp := ZMod P

instance : NeZero P := ⟨by decide⟩

/-! ## Fast modular exponentiation

Used only to certify primality of `P` by Lucas' theorem; fuelled
square-and-multiply so the kernel can evaluate it on 254-bit numbers. -/

/-- `powMod fuel a n m = a ^ n % m`, provided `n < 2 ^ fuel` and `0 < m`. -/
def powMod : ℕ → ℕ → ℕ → ℕ → ℕ
  | 0, _, _, m => 1 % m
  | fuel + 1, a, n, m =>
    if n = 0 then 1 % m
    else
      let r := powMod fuel (a * a % m) (n / 2) m
      if n % 2 = 1 then r * a % m else r



/-! ## The four gates of `MerkleSumTreeChip::configure`

Each definition is the polynomial handed to `meta.create_gate` in
`src/chips/merkle_sum_tree.rs`; a gate is satisfied on a row exactly when
its polynomial evaluates to the zero field element there.  `s` is the
queried selector value (`1` when the selector is enabled on the row). -/

/-- "bool constraint" (lines 82-86): `s * e * (1 - e)`. -/
def boolGate (s e : Fp) : Fp := s * e * (1 - e)

/-- First polynomial of the "swap constraint" (line 101):
`s * e * ((l1 - a) - (c - r1))`, where `a,c,e` are read on the current
row and `l1, r1` are columns a,c of the next row. -/
def swapGate1 (s a c e l1 r1 : Fp) : Fp := s * e * ((l1 - a) - (c - r1))

/-- Second polynomial of the "swap constraint" (line 102):
`s * e * ((l2 - b) - (d - r2))`, where `b,d,e` are read on the current
row and `l2, r2` are columns b,d of the next row. -/
def swapGate2 (s b d e l2 r2 : Fp) : Fp := s * e * ((l2 - b) - (d - r2))

/-- "sum constraint" (lines 106-112): `s * (b + d - e)` on the current
row (left balance, right balance, computed sum). -/
def sumGate (s b d e : Fp) : Fp := s * (b + d - e)

/-- "lt constraint" (lines 136-142): `q_enable * (is_lt - check)` where
`check` is column c on the current row and `is_lt` is the boolean output
expression of the less-than gadget. -/
def ltGate (s isLt c : Fp) : Fp := s * (isLt - c)

/-! ## Region layout of the witness-assignment functions

A region built by `Layouter::assign_region` is modelled as the ordered
list of primitive calls the closure makes: selector enablings,
`copy_advice` (assignment plus copy constraint to an existing cell),
plain `assign_advice`, and `assign_advice_from_instance`.  Columns a-e
are indices 0-4. -/

/-- The four selectors of `MerkleSumTreeConfig`. -/
inductive Sel
  | boolSel
  | swapSel
  | sumSel
  | ltSel
deriving DecidableEq

/-- One primitive call made by a region-assignment closure. -/
inductive RegionOp
  | enable (s : Sel) (row : ℕ)
  | copy (col row : ℕ) (val : Fp)
  | assign (col row : ℕ) (val : Fp)
  | assignFromInstance (instRow col row : ℕ)
deriving DecidableEq

/-- Whether selector `s` is enabled on `row` by the region. -/
def selEnabled (ops : List RegionOp) (s : Sel) (row : ℕ) : Bool :=
  ops.any fun op => op = .enable s row

/-- The value `copy_advice`d (copy-constrained) into `(col, row)`, if any. -/
def copiedVal (ops : List RegionOp) (col row : ℕ) : Option Fp :=
  ops.findSome? fun op =>
    match op with
    | .copy c r v => if c = col ∧ r = row then some v else none
    | _ => none

/-- The value assigned as a fresh witness into `(col, row)`, if any. -/
def freshVal (ops : List RegionOp) (col row : ℕ) : Option Fp :=
  ops.findSome? fun op =>
    match op with
    | .assign c r v => if c = col ∧ r = row then some v else none
    | _ => none

/-- The instance row copied by `assign_advice_from_instance` into
`(col, row)`, if any. -/
def instanceRowAt (ops : List RegionOp) (col row : ℕ) : Option ℕ :=
  ops.findSome? fun op =>
    match op with
    | .assignFromInstance ir c r => if c = col ∧ r = row then some ir else none
    | _ => none

/-- The row-1 witness selection of `merkle_prove_layer`
(lines 242-249): `if x == Fp::zero() { (l1, l2, r1, r2) } else
{ (r1, r2, l1, l2) }`. -/
def selectQuad (l1 l2 r1 r2 index : Fp) : Fp × Fp × Fp × Fp :=
  if index = 0 then (l1, l2, r1, r2) else (r1, r2, l1, l2)

/-- The two-row region built by `merkle_prove_layer`
(lines 196-301), in the order the closure issues its calls: enable
`bool` and `swap` on row 0, copy the previous hash and balance into
columns a,b of row 0, assign the sibling hash, sibling balance and
direction index into columns c,d,e of row 0, enable `sum` on row 1,
assign the direction-ordered quadruple into columns a-d of row 1, and
assign the sum of the two ordered balances into column e of row 1. -/
def merkleProveLayerOps (prevHash prevBalance elementHash elementBalance index : Fp) :
    List RegionOp :=
  let q := selectQuad prevHash prevBalance elementHash elementBalance index
  [ .enable .boolSel 0,
    .enable .swapSel 0,
    .copy 0 0 prevHash,
    .copy 1 0 prevBalance,
    .assign 2 0 elementHash,
    .assign 3 0 elementBalance,
    .assign 4 0 index,
    .enable .sumSel 1,
    .assign 0 1 q.1,
    .assign 1 1 q.2.1,
    .assign 2 1 q.2.2.1,
    .assign 3 1 q.2.2.2,
    .assign 4 1 (q.2.1 + q.2.2.2) ]

/-- The one-row region built by `enforce_less_than` (lines 330-377), in
the order the closure issues its calls: copy the computed-sum cell into
column a of row 0, `assign_advice_from_instance` row 3 of the instance
column into column b of row 0, assign the constant `1` into column c of
row 0, and enable the `lt` selector on row 0.  (The subsequent
`LtChip::assign` drives the gadget's own columns and is modelled
separately.) -/
def enforceLessThanOps (computedSum : Fp) : List RegionOp :=
  [ .copy 0 0 computedSum,
    .assignFromInstance 3 1 0,
    .assign 2 0 1,
    .enable .ltSel 0 ]

/-! ## Poseidon specification `MySpec` (`src/chips/poseidon/spec.rs`)

The trait methods of `impl Spec<Fp, 5, 4> for MySpec` are embedded as
`Except`-valued functions: a method that returns normally yields `.ok`,
and `unimplemented!()` (a panic) yields `.error`. -/

/-- `WIDTH` (`src/chips/merkle_sum_tree.rs` line 7). -/
def WIDTH : ℕ := 5

/-- `RATE` (`src/chips/merkle_sum_tree.rs` line 8). -/
def RATE : ℕ := 4

/-- `L` (`src/chips/merkle_sum_tree.rs` line 9). -/
def L : ℕ := 4

namespace rate4Params

/-- Modelled from the spec: `rate4_params::ROUND_CONSTANTS`, the
precomputed static round-constant table for the rate-4 Poseidon
instance over bn256 (`src/chips/poseidon/rate4_params.rs` is declared
in `src/chips/poseidon/mod.rs` but its body is not among the shown
sources).  Per the spec the table is static data regenerated per target
field, not computed at runtime; its concrete entries are immaterial to
the claims and are represented by a fixed placeholder. -/
def ROUND_CONSTANTS : List (Fin 5 → Fp) := List.replicate 68 fun _ => 0

/-- Modelled from the spec: `rate4_params::MDS`, the precomputed static
MDS matrix (same provenance note as `ROUND_CONSTANTS`). -/
def MDS : Fin 5 → Fin 5 → Fp := fun _ _ => 0

/-- Modelled from the spec: `rate4_params::MDS_INV`, the precomputed
static inverse-MDS matrix (same provenance note as `ROUND_CONSTANTS`). -/
def MDS_INV : Fin 5 → Fin 5 → Fp := fun _ _ => 0

end rate4Params

namespace MySpec

/-- `fn full_rounds() -> usize { 8 }` (spec.rs lines 14-16). -/
def fullRounds : Except String ℕ := .ok 8

/-- `fn partial_rounds() -> usize { 60 }` (spec.rs lines 18-20). -/
def partialRounds : Except String ℕ := .ok 60

/-- `fn sbox(val: Fp) -> Fp { val.pow_vartime(&[5]) }` (spec.rs
lines 22-24). -/
def sbox (val : Fp) : Except String Fp := .ok (val ^ 5)

/-- `fn secure_mds() -> usize { unimplemented!() }` (spec.rs
lines 26-28): the call always panics. -/
def secureMds : Except String ℕ := .error "not implemented"

/-- `fn constants()` (spec.rs lines 30-36): returns the three
precomputed `rate4_params` tables. -/
def constants :
    Except String (List (Fin 5 → Fp) × (Fin 5 → Fin 5 → Fp) × (Fin 5 → Fin 5 → Fp)) :=
  .ok (rate4Params.ROUND_CONSTANTS, rate4Params.MDS, rate4Params.MDS_INV)

end MySpec

/-! ## The less-than gadget and the `enforce_less_than` row

`gadgets::less_than::LtChip` at `LtConfig<Fp, 8>` is an external crate
whose source is not among the shown files. -/

/-- `N_BYTES = 8` limbs, so the gadget's `range` is `2^(8*8)`. -/
def ltRange : ℕ := 2 ^ 64

/-- The composed value of the 8 byte limbs of the gadget's `diff`
columns, little-endian base 256. -/
def diffVal (diff : Fin 8 → ℕ) : ℕ := ∑ i : Fin 8, diff i * 256 ^ (i : ℕ)

/-- Modelled from the spec: the constraint system of the external
8-limb less-than gadget (spec §6: "external 8-limb decomposition
less-than primitive").  On a row where its selector is enabled with
operands `lhs`, `rhs` it witnesses a flag `ltFlag` and eight byte limbs
`diff`, constrained by: each limb is a byte (u8 lookup), the flag is
boolean, and `lhs - rhs - diff_composed + ltFlag * range = 0`. -/
def ltChipConstraints (lhs rhs ltFlag : Fp) (diff : Fin 8 → ℕ) : Prop :=
  (∀ i, diff i < 256) ∧
  ltFlag * (1 - ltFlag) = 0 ∧
  lhs - rhs - (diffVal diff : ℕ) + ltFlag * ((ltRange : ℕ) : Fp) = 0

/-- Satisfiability of the row laid out by `enforce_less_than`: per
`enforceLessThanOps`, column a holds the final sum (the gadget's `lhs`),
column b the total-assets value (the gadget's `rhs`), column c is
assigned the constant `1`, and the `lt` selector is enabled, so the
"lt constraint" gate `ltGate` is active with `check = 1` together with
the gadget's own constraints.  The flag and limbs are the prover's free
witnesses. -/
def enforceRowSat (sum total : Fp) : Prop :=
  ∃ (ltFlag : Fp) (diff : Fin 8 → ℕ),
    ltChipConstraints sum total ltFlag diff ∧ ltGate 1 ltFlag 1 = 0

/-- Control-flow model of `enforce_less_than` (lines 321-380): the
result of `chip.load` is propagated with `?`; the result of the inner
`chip.assign` call (line 365) is only pattern-matched with
`if let Err(e)`, printed with `println!`, and dropped, after which the
region closure returns `Ok(())`.  The model returns the pair (overall
result, lines printed). -/
def enforceLessThanResult (loadResult assignResult : Except String Unit) :
    Except String Unit × List String :=
  match loadResult with
  | .error e => (.error e, [])
  | .ok () =>
    match assignResult with
    | .error e => (.ok (), ["Error: " ++ e])
    | .ok () => (.ok (), [])

theorem powMod_eq (m : ℕ) :
    ∀ fuel a n, n < 2 ^ fuel → powMod fuel a n m = a ^ n % m := by
  intro fuel
  induction fuel with
  | zero =>
    intro a n hn
    interval_cases n
    simp [powMod]
  | succ fuel ih =>
    intro a n hn
    by_cases h0 : n = 0
    · simp [powMod, h0]
    · have hdiv : n / 2 < 2 ^ fuel := by
        rw [Nat.div_lt_iff_lt_mul (by norm_num)]
        calc n < 2 ^ (fuel + 1) := hn
        _ = 2 ^ fuel * 2 := by ring
      have hr : powMod fuel (a * a % m) (n / 2) m = (a * a) ^ (n / 2) % m := by
        rw [ih _ _ hdiv]
        conv_rhs => rw [Nat.pow_mod]
      have hsq : (a * a) ^ (n / 2) = a ^ (2 * (n / 2)) := by
        rw [two_mul, pow_add, ← mul_pow]
      rcases Nat.even_or_odd n with he | ho
      · have h2 : n % 2 = 0 := Nat.even_iff.mp he
        have hn2 : 2 * (n / 2) = n := by omega
        simp only [powMod, h0, if_false, h2]
        norm_num
        rw [hr, hsq, hn2]
      · have h2 : n % 2 = 1 := Nat.odd_iff.mp ho
        have hn2 : 2 * (n / 2) + 1 = n := by omega
        simp only [powMod, h0, if_false, h2, if_true]
        rw [hr, Nat.mod_mul_mod, hsq, ← pow_succ, hn2]

set_option maxRecDepth 8000

/-! ## Primality of `P`

Lucas-certificate chain certifying that the bn256 scalar modulus `P` is
prime, so that `Fp` is a field (needed to analyse when products of gate
factors vanish). -/

theorem castPow_eq (m a n : ℕ) (hn : n < 2 ^ 300) :
    ((a : ℕ) : ZMod m) ^ n = ((powMod 300 a n m : ℕ) : ZMod m) := by
  rw [powMod_eq m 300 a n hn, ZMod.natCast_mod, Nat.cast_pow]

theorem natCast_ne_one {m r : ℕ} (hm : 1 < m) (hrm : r < m) (hr : r ≠ 1) :
    ((r : ℕ) : ZMod m) ≠ 1 := by
  intro h
  apply hr
  have h1 : ((1 : ℕ) : ZMod m) = 1 := Nat.cast_one
  rw [← h1] at h
  have hval := congrArg ZMod.val h
  rwa [ZMod.val_natCast_of_lt hrm, ZMod.val_natCast_of_lt hm] at hval

theorem prime_1593227 : Nat.Prime 1593227 := by
  have h2 : Nat.Prime 2 := by norm_num
  have h19 : Nat.Prime 19 := by norm_num
  have h41927 : Nat.Prime 41927 := by norm_num
  refine lucas_primality _ ((2 : ℕ) : ZMod _) ?_ ?_
  · rw [castPow_eq _ _ _ (by decide),
      show powMod 300 2 (1593227 - 1) 1593227 = 1 from by decide]
    exact Nat.cast_one
  · intro q hq hdvd
    have hcases : q = 2 ∨ q = 19 ∨ q = 41927 := by
      have hfac : (1593227 - 1 : ℕ) = 2 * (19 * 41927) := by decide
      rw [hfac] at hdvd
      rcases hq.dvd_mul.mp hdvd with h | h
      · exact Or.inl ((Nat.prime_dvd_prime_iff_eq hq h2).mp h)
      rcases hq.dvd_mul.mp h with h | h
      · exact Or.inr (Or.inl ((Nat.prime_dvd_prime_iff_eq hq h19).mp h))
      · exact Or.inr (Or.inr ((Nat.prime_dvd_prime_iff_eq hq h41927).mp h))
    rcases hcases with rfl | rfl | rfl
    · rw [castPow_eq _ _ _ (by decide),
        show powMod 300 2 ((1593227 - 1) / 2) 1593227 = 1593226 from by decide]
      exact natCast_ne_one (by decide) (by decide) (by decide)
    · rw [castPow_eq _ _ _ (by decide),
        show powMod 300 2 ((1593227 - 1) / 19) 1593227 = 836782 from by decide]
      exact natCast_ne_one (by decide) (by decide) (by decide)
    · rw [castPow_eq _ _ _ (by decide),
        show powMod 300 2 ((1593227 - 1) / 41927) 1593227 = 45861 from by decide]
      exact natCast_ne_one (by decide) (by decide) (by decide)

theorem prime_405928799 : Nat.Prime 405928799 := by
  have h2 : Nat.Prime 2 := by norm_num
  have h11 : Nat.Prime 11 := by norm_num
  have h3691 : Nat.Prime 3691 := by norm_num
  have h4999 : Nat.Prime 4999 := by norm_num
  refine lucas_primality _ ((22 : ℕ) : ZMod _) ?_ ?_
  · rw [castPow_eq _ _ _ (by decide),
      show powMod 300 22 (405928799 - 1) 405928799 = 1 from by decide]
    exact Nat.cast_one
  · intro q hq hdvd
    have hcases : q = 2 ∨ q = 11 ∨ q = 3691 ∨ q = 4999 := by
      have hfac : (405928799 - 1 : ℕ) = 2 * (11 * (3691 * 4999)) := by decide
      rw [hfac] at hdvd
      rcases hq.dvd_mul.mp hdvd with h | h
      · exact Or.inl ((Nat.prime_dvd_prime_iff_eq hq h2).mp h)
      rcases hq.dvd_mul.mp h with h | h
      · exact Or.inr (Or.inl ((Nat.prime_dvd_prime_iff_eq hq h11).mp h))
      rcases hq.dvd_mul.mp h with h | h
      · exact Or.inr (Or.inr (Or.inl ((Nat.prime_dvd_prime_iff_eq hq h3691).mp h)))
      · exact Or.inr (Or.inr (Or.inr ((Nat.prime_dvd_prime_iff_eq hq h4999).mp h)))
    rcases hcases with rfl | rfl | rfl | rfl
    · rw [castPow_eq _ _ _ (by decide),
        show powMod 300 22 ((405928799 - 1) / 2) 405928799 = 405928798 from by decide]
      exact natCast_ne_one (by decide) (by decide) (by decide)
    · rw [castPow_eq _ _ _ (by decide),
        show powMod 300 22 ((405928799 - 1) / 11) 405928799 = 215859951 from by decide]
      exact natCast_ne_one (by decide) (by decide) (by decide)
    · rw [castPow_eq _ _ _ (by decide),
        show powMod 300 22 ((405928799 - 1) / 3691) 405928799 = 147917081 from by decide]
      exact natCast_ne_one (by decide) (by decide) (by decide)
    · rw [castPow_eq _ _ _ (by decide),
        show powMod 300 22 ((405928799 - 1) / 4999) 405928799 = 61847818 from by decide]
      exact natCast_ne_one (by decide) (by decide) (by decide)

theorem prime_639533339 : Nat.Prime 639533339 := by
  have h2 : Nat.Prime 2 := by norm_num
  have h229 : Nat.Prime 229 := by norm_num
  have h853 : Nat.Prime 853 := by norm_num
  have h1637 : Nat.Prime 1637 := by norm_num
  refine lucas_primality _ ((2 : ℕ) : ZMod _) ?_ ?_
  · rw [castPow_eq _ _ _ (by decide),
      show powMod 300 2 (639533339 - 1) 639533339 = 1 from by decide]
    exact Nat.cast_one
  · intro q hq hdvd
    have hcases : q = 2 ∨ q = 229 ∨ q = 853 ∨ q = 1637 := by
      have hfac : (639533339 - 1 : ℕ) = 2 * (229 * (853 * 1637)) := by decide
      rw [hfac] at hdvd
      rcases hq.dvd_mul.mp hdvd with h | h
      · exact Or.inl ((Nat.prime_dvd_prime_iff_eq hq h2).mp h)
      rcases hq.dvd_mul.mp h with h | h
      · exact Or.inr (Or.inl ((Nat.prime_dvd_prime_iff_eq hq h229).mp h))
      rcases hq.dvd_mul.mp h with h | h
      · exact Or.inr (Or.inr (Or.inl ((Nat.prime_dvd_prime_iff_eq hq h853).mp h)))
      · exact Or.inr (Or.inr (Or.inr ((Nat.prime_dvd_prime_iff_eq hq h1637).mp h)))
    rcases hcases with rfl | rfl | rfl | rfl
    · rw [castPow_eq _ _ _ (by decide),
        show powMod 300 2 ((639533339 - 1) / 2) 639533339 = 639533338 from by decide]
      exact natCast_ne_one (by decide) (by decide) (by decide)
    · rw [castPow_eq _ _ _ (by decide),
        show powMod 300 2 ((639533339 - 1) / 229) 639533339 = 271298491 from by decide]
      exact natCast_ne_one (by decide) (by decide) (by decide)
    · rw [castPow_eq _ _ _ (by decide),
        show powMod 300 2 ((639533339 - 1) / 853) 639533339 = 256057581 from by decide]
      exact natCast_ne_one (by decide) (by decide) (by decide)
    · rw [castPow_eq _ _ _ (by decide),
        show powMod 300 2 ((639533339 - 1) / 1637) 639533339 = 248876995 from by decide]
      exact natCast_ne_one (by decide) (by decide) (by decide)

theorem prime_12048837557 : Nat.Prime 12048837557 := by
  have h2 : Nat.Prime 2 := by norm_num
  have h7 : Nat.Prime 7 := by norm_num
  have h661 : Nat.Prime 661 := by norm_num
  have h93001 : Nat.Prime 93001 := by norm_num
  refine lucas_primality _ ((2 : ℕ) : ZMod _) ?_ ?_
  · rw [castPow_eq _ _ _ (by decide),
      show powMod 300 2 (12048837557 - 1) 12048837557 = 1 from by decide]
    exact Nat.cast_one
  · intro q hq hdvd
    have hcases : q = 2 ∨ q = 7 ∨ q = 661 ∨ q = 93001 := by
      have hfac : (12048837557 - 1 : ℕ) = 2 ^ 2 * (7 ^ 2 * (661 * 93001)) := by decide
      rw [hfac] at hdvd
      rcases hq.dvd_mul.mp hdvd with h | h
      · exact Or.inl ((Nat.prime_dvd_prime_iff_eq hq h2).mp (hq.dvd_of_dvd_pow h))
      rcases hq.dvd_mul.mp h with h | h
      · exact Or.inr (Or.inl ((Nat.prime_dvd_prime_iff_eq hq h7).mp (hq.dvd_of_dvd_pow h)))
      rcases hq.dvd_mul.mp h with h | h
      · exact Or.inr (Or.inr (Or.inl ((Nat.prime_dvd_prime_iff_eq hq h661).mp h)))
      · exact Or.inr (Or.inr (Or.inr ((Nat.prime_dvd_prime_iff_eq hq h93001).mp h)))
    rcases hcases with rfl | rfl | rfl | rfl
    · rw [castPow_eq _ _ _ (by decide),
        show powMod 300 2 ((12048837557 - 1) / 2) 12048837557 = 12048837556 from by decide]
      exact natCast_ne_one (by decide) (by decide) (by decide)
    · rw [castPow_eq _ _ _ (by decide),
        show powMod 300 2 ((12048837557 - 1) / 7) 12048837557 = 41029474 from by decide]
      exact natCast_ne_one (by decide) (by decide) (by decide)
    · rw [castPow_eq _ _ _ (by decide),
        show powMod 300 2 ((12048837557 - 1) / 661) 12048837557 = 8877273464 from by decide]
      exact natCast_ne_one (by decide) (by decide) (by decide)
    · rw [castPow_eq _ _ _ (by decide),
        show powMod 300 2 ((12048837557 - 1) / 93001) 12048837557 = 4746995210 from by decide]
      exact natCast_ne_one (by decide) (by decide) (by decide)

theorem prime_5156902474397 : Nat.Prime 5156902474397 := by
  have h2 : Nat.Prime 2 := by norm_num
  have h107 : Nat.Prime 107 := by norm_num
  have hbig := prime_12048837557
  refine lucas_primality _ ((2 : ℕ) : ZMod _) ?_ ?_
  · rw [castPow_eq _ _ _ (by decide),
      show powMod 300 2 (5156902474397 - 1) 5156902474397 = 1 from by decide]
    exact Nat.cast_one
  · intro q hq hdvd
    have hcases : q = 2 ∨ q = 107 ∨ q = 12048837557 := by
      have hfac : (5156902474397 - 1 : ℕ) = 2 ^ 2 * (107 * 12048837557) := by decide
      rw [hfac] at hdvd
      rcases hq.dvd_mul.mp hdvd with h | h
      · exact Or.inl ((Nat.prime_dvd_prime_iff_eq hq h2).mp (hq.dvd_of_dvd_pow h))
      rcases hq.dvd_mul.mp h with h | h
      · exact Or.inr (Or.inl ((Nat.prime_dvd_prime_iff_eq hq h107).mp h))
      · exact Or.inr (Or.inr ((Nat.prime_dvd_prime_iff_eq hq hbig).mp h))
    rcases hcases with rfl | rfl | rfl
    · rw [castPow_eq _ _ _ (by decide),
        show powMod 300 2 ((5156902474397 - 1) / 2) 5156902474397 = 5156902474396 from by decide]
      exact natCast_ne_one (by decide) (by decide) (by decide)
    · rw [castPow_eq _ _ _ (by decide),
        show powMod 300 2 ((5156902474397 - 1) / 107) 5156902474397 = 4827909776387 from by decide]
      exact natCast_ne_one (by decide) (by decide) (by decide)
    · rw [castPow_eq _ _ _ (by decide),
        show powMod 300 2 ((5156902474397 - 1) / 12048837557) 5156902474397 = 4746712836098 from
          by decide]
      exact natCast_ne_one (by decide) (by decide) (by decide)

theorem prime_1670836401704629 : Nat.Prime 1670836401704629 := by
  have h2 : Nat.Prime 2 := by norm_num
  have h3 : Nat.Prime 3 := by norm_num
  have hbig := prime_5156902474397
  refine lucas_primality _ ((2 : ℕ) : ZMod _) ?_ ?_
  · rw [castPow_eq _ _ _ (by decide),
      show powMod 300 2 (1670836401704629 - 1) 1670836401704629 = 1 from by decide]
    exact Nat.cast_one
  · intro q hq hdvd
    have hcases : q = 2 ∨ q = 3 ∨ q = 5156902474397 := by
      have hfac : (1670836401704629 - 1 : ℕ) = 2 ^ 2 * (3 ^ 4 * 5156902474397) := by decide
      rw [hfac] at hdvd
      rcases hq.dvd_mul.mp hdvd with h | h
      · exact Or.inl ((Nat.prime_dvd_prime_iff_eq hq h2).mp (hq.dvd_of_dvd_pow h))
      rcases hq.dvd_mul.mp h with h | h
      · exact Or.inr (Or.inl ((Nat.prime_dvd_prime_iff_eq hq h3).mp (hq.dvd_of_dvd_pow h)))
      · exact Or.inr (Or.inr ((Nat.prime_dvd_prime_iff_eq hq hbig).mp h))
    rcases hcases with rfl | rfl | rfl
    · rw [castPow_eq _ _ _ (by decide),
        show powMod 300 2 ((1670836401704629 - 1) / 2) 1670836401704629 = 1670836401704628 from
          by decide]
      exact natCast_ne_one (by decide) (by decide) (by decide)
    · rw [castPow_eq _ _ _ (by decide),
        show powMod 300 2 ((1670836401704629 - 1) / 3) 1670836401704629 = 1322408984917240 from
          by decide]
      exact natCast_ne_one (by decide) (by decide) (by decide)
    · rw [castPow_eq _ _ _ (by decide),
        show powMod 300 2 ((1670836401704629 - 1) / 5156902474397) 1670836401704629 =
          11046204280772 from by decide]
      exact natCast_ne_one (by decide) (by decide) (by decide)

theorem prime_65865678001877903 : Nat.Prime 65865678001877903 := by
  have h2 : Nat.Prime 2 := by norm_num
  have h83 : Nat.Prime 83 := by norm_num
  have h379 : Nat.Prime 379 := by norm_num
  have h1637 : Nat.Prime 1637 := by norm_num
  have h639533339 := prime_639533339
  refine lucas_primality _ ((5 : ℕ) : ZMod _) ?_ ?_
  · rw [castPow_eq _ _ _ (by decide),
      show powMod 300 5 (65865678001877903 - 1) 65865678001877903 = 1 from by decide]
    exact Nat.cast_one
  · intro q hq hdvd
    have hcases : q = 2 ∨ q = 83 ∨ q = 379 ∨ q = 1637 ∨ q = 639533339 := by
      have hfac : (65865678001877903 - 1 : ℕ) = 2 * (83 * (379 * (1637 * 639533339))) := by
        decide
      rw [hfac] at hdvd
      rcases hq.dvd_mul.mp hdvd with h | h
      · exact Or.inl ((Nat.prime_dvd_prime_iff_eq hq h2).mp h)
      rcases hq.dvd_mul.mp h with h | h
      · exact Or.inr (Or.inl ((Nat.prime_dvd_prime_iff_eq hq h83).mp h))
      rcases hq.dvd_mul.mp h with h | h
      · exact Or.inr (Or.inr (Or.inl ((Nat.prime_dvd_prime_iff_eq hq h379).mp h)))
      rcases hq.dvd_mul.mp h with h | h
      · exact Or.inr (Or.inr (Or.inr (Or.inl ((Nat.prime_dvd_prime_iff_eq hq h1637).mp h))))
      · exact Or.inr (Or.inr (Or.inr (Or.inr ((Nat.prime_dvd_prime_iff_eq hq h639533339).mp h))))
    rcases hcases with rfl | rfl | rfl | rfl | rfl
    · rw [castPow_eq _ _ _ (by decide),
        show powMod 300 5 ((65865678001877903 - 1) / 2) 65865678001877903 =
          65865678001877902 from by decide]
      exact natCast_ne_one (by decide) (by decide) (by decide)
    · rw [castPow_eq _ _ _ (by decide),
        show powMod 300 5 ((65865678001877903 - 1) / 83) 65865678001877903 =
          46316002665751102 from by decide]
      exact natCast_ne_one (by decide) (by decide) (by decide)
    · rw [castPow_eq _ _ _ (by decide),
        show powMod 300 5 ((65865678001877903 - 1) / 379) 65865678001877903 =
          43783936274874531 from by decide]
      exact natCast_ne_one (by decide) (by decide) (by decide)
    · rw [castPow_eq _ _ _ (by decide),
        show powMod 300 5 ((65865678001877903 - 1) / 1637) 65865678001877903 =
          56641079936670322 from by decide]
      exact natCast_ne_one (by decide) (by decide) (by decide)
    · rw [castPow_eq _ _ _ (by decide),
        show powMod 300 5 ((65865678001877903 - 1) / 639533339) 65865678001877903 =
          18968088485270649 from by decide]
      exact natCast_ne_one (by decide) (by decide) (by decide)

theorem prime_13818364434197438864469338081 :
    Nat.Prime 13818364434197438864469338081 := by
  have h2 : Nat.Prime 2 := by norm_num
  have h5 : Nat.Prime 5 := by norm_num
  have h823 : Nat.Prime 823 := by norm_num
  have h1593227 := prime_1593227
  have hbig := prime_65865678001877903
  refine lucas_primality _ ((3 : ℕ) : ZMod _) ?_ ?_
  · rw [castPow_eq _ _ _ (by decide),
      show powMod 300 3 (13818364434197438864469338081 - 1)
        13818364434197438864469338081 = 1 from by decide]
    exact Nat.cast_one
  · intro q hq hdvd
    have hcases : q = 2 ∨ q = 5 ∨ q = 823 ∨ q = 1593227 ∨ q = 65865678001877903 := by
      have hfac : (13818364434197438864469338081 - 1 : ℕ) =
          2 ^ 5 * (5 * (823 * (1593227 * 65865678001877903))) := by decide
      rw [hfac] at hdvd
      rcases hq.dvd_mul.mp hdvd with h | h
      · exact Or.inl ((Nat.prime_dvd_prime_iff_eq hq h2).mp (hq.dvd_of_dvd_pow h))
      rcases hq.dvd_mul.mp h with h | h
      · exact Or.inr (Or.inl ((Nat.prime_dvd_prime_iff_eq hq h5).mp h))
      rcases hq.dvd_mul.mp h with h | h
      · exact Or.inr (Or.inr (Or.inl ((Nat.prime_dvd_prime_iff_eq hq h823).mp h)))
      rcases hq.dvd_mul.mp h with h | h
      · exact Or.inr (Or.inr (Or.inr (Or.inl ((Nat.prime_dvd_prime_iff_eq hq h1593227).mp h))))
      · exact Or.inr (Or.inr (Or.inr (Or.inr ((Nat.prime_dvd_prime_iff_eq hq hbig).mp h))))
    rcases hcases with rfl | rfl | rfl | rfl | rfl
    · rw [castPow_eq _ _ _ (by decide),
        show powMod 300 3 ((13818364434197438864469338081 - 1) / 2)
          13818364434197438864469338081 = 13818364434197438864469338080 from by decide]
      exact natCast_ne_one (by decide) (by decide) (by decide)
    · rw [castPow_eq _ _ _ (by decide),
        show powMod 300 3 ((13818364434197438864469338081 - 1) / 5)
          13818364434197438864469338081 = 1236319344469036993987267104 from by decide]
      exact natCast_ne_one (by decide) (by decide) (by decide)
    · rw [castPow_eq _ _ _ (by decide),
        show powMod 300 3 ((13818364434197438864469338081 - 1) / 823)
          13818364434197438864469338081 = 570363171180057177517864248 from by decide]
      exact natCast_ne_one (by decide) (by decide) (by decide)
    · rw [castPow_eq _ _ _ (by decide),
        show powMod 300 3 ((13818364434197438864469338081 - 1) / 1593227)
          13818364434197438864469338081 = 9233249052774251384923794665 from by decide]
      exact natCast_ne_one (by decide) (by decide) (by decide)
    · rw [castPow_eq _ _ _ (by decide),
        show powMod 300 3 ((13818364434197438864469338081 - 1) / 65865678001877903)
          13818364434197438864469338081 = 11685553033882782147454259209 from by decide]
      exact natCast_ne_one (by decide) (by decide) (by decide)

theorem prime_P : Nat.Prime P := by
  have h2 : Nat.Prime 2 := by norm_num
  have h3 : Nat.Prime 3 := by norm_num
  have h13 : Nat.Prime 13 := by norm_num
  have h29 : Nat.Prime 29 := by norm_num
  have h983 : Nat.Prime 983 := by norm_num
  have h11003 : Nat.Prime 11003 := by norm_num
  have h237073 : Nat.Prime 237073 := by norm_num
  have h405928799 := prime_405928799
  have hbig1 := prime_1670836401704629
  have hbig2 := prime_13818364434197438864469338081
  refine lucas_primality _ ((5 : ℕ) : ZMod _) ?_ ?_
  · rw [castPow_eq _ _ _ (by decide),
      show powMod 300 5 (P - 1) P = 1 from by decide]
    exact Nat.cast_one
  · intro q hq hdvd
    have hcases : q = 2 ∨ q = 3 ∨ q = 13 ∨ q = 29 ∨ q = 983 ∨ q = 11003 ∨ q = 237073 ∨
        q = 405928799 ∨ q = 1670836401704629 ∨ q = 13818364434197438864469338081 := by
      have hfac : (P - 1 : ℕ) = 2 ^ 28 * (3 ^ 2 * (13 * (29 * (983 * (11003 * (237073 *
          (405928799 * (1670836401704629 * 13818364434197438864469338081)))))))) := by decide
      rw [hfac] at hdvd
      rcases hq.dvd_mul.mp hdvd with h | h
      · exact Or.inl ((Nat.prime_dvd_prime_iff_eq hq h2).mp (hq.dvd_of_dvd_pow h))
      rcases hq.dvd_mul.mp h with h | h
      · exact Or.inr (Or.inl ((Nat.prime_dvd_prime_iff_eq hq h3).mp (hq.dvd_of_dvd_pow h)))
      rcases hq.dvd_mul.mp h with h | h
      · exact Or.inr (Or.inr (Or.inl ((Nat.prime_dvd_prime_iff_eq hq h13).mp h)))
      rcases hq.dvd_mul.mp h with h | h
      · exact Or.inr (Or.inr (Or.inr (Or.inl ((Nat.prime_dvd_prime_iff_eq hq h29).mp h))))
      rcases hq.dvd_mul.mp h with h | h
      · exact Or.inr (Or.inr (Or.inr (Or.inr (Or.inl
          ((Nat.prime_dvd_prime_iff_eq hq h983).mp h)))))
      rcases hq.dvd_mul.mp h with h | h
      · exact Or.inr (Or.inr (Or.inr (Or.inr (Or.inr (Or.inl
          ((Nat.prime_dvd_prime_iff_eq hq h11003).mp h))))))
      rcases hq.dvd_mul.mp h with h | h
      · exact Or.inr (Or.inr (Or.inr (Or.inr (Or.inr (Or.inr (Or.inl
          ((Nat.prime_dvd_prime_iff_eq hq h237073).mp h)))))))
      rcases hq.dvd_mul.mp h with h | h
      · exact Or.inr (Or.inr (Or.inr (Or.inr (Or.inr (Or.inr (Or.inr (Or.inl
          ((Nat.prime_dvd_prime_iff_eq hq h405928799).mp h))))))))
      rcases hq.dvd_mul.mp h with h | h
      · exact Or.inr (Or.inr (Or.inr (Or.inr (Or.inr (Or.inr (Or.inr (Or.inr (Or.inl
          ((Nat.prime_dvd_prime_iff_eq hq hbig1).mp h)))))))))
      · exact Or.inr (Or.inr (Or.inr (Or.inr (Or.inr (Or.inr (Or.inr (Or.inr (Or.inr
          ((Nat.prime_dvd_prime_iff_eq hq hbig2).mp h)))))))))
    rcases hcases with rfl | rfl | rfl | rfl | rfl | rfl | rfl | rfl | rfl | rfl
    · rw [castPow_eq _ _ _ (by decide),
        show powMod 300 5 ((P - 1) / 2) P =
          21888242871839275222246405745257275088548364400416034343698204186575808495616 from
          by decide]
      exact natCast_ne_one (by decide) (by decide) (by decide)
    · rw [castPow_eq _ _ _ (by decide),
        show powMod 300 5 ((P - 1) / 3) P =
          4407920970296243842393367215006156084916469457145843978461 from by decide]
      exact natCast_ne_one (by decide) (by decide) (by decide)
    · rw [castPow_eq _ _ _ (by decide),
        show powMod 300 5 ((P - 1) / 13) P =
          20846111736645777009767703653665533493788639406277865704073555848150445038125 from
          by decide]
      exact natCast_ne_one (by decide) (by decide) (by decide)
    · rw [castPow_eq _ _ _ (by decide),
        show powMod 300 5 ((P - 1) / 29) P =
          18357710930920482893114740859477755941065533295300174657912055312005893977631 from
          by decide]
      exact natCast_ne_one (by decide) (by decide) (by decide)
    · rw [castPow_eq _ _ _ (by decide),
        show powMod 300 5 ((P - 1) / 983) P =
          16151937248511612831218790030381502136078900305644383989873770910345603053439 from
          by decide]
      exact natCast_ne_one (by decide) (by decide) (by decide)
    · rw [castPow_eq _ _ _ (by decide),
        show powMod 300 5 ((P - 1) / 11003) P =
          8299083658399422953216871473066571686783765754016288837524968026835148283600 from
          by decide]
      exact natCast_ne_one (by decide) (by decide) (by decide)
    · rw [castPow_eq _ _ _ (by decide),
        show powMod 300 5 ((P - 1) / 237073) P =
          1135558486015409621676726807058439328573409521523979529600469708688064761941 from
          by decide]
      exact natCast_ne_one (by decide) (by decide) (by decide)
    · rw [castPow_eq _ _ _ (by decide),
        show powMod 300 5 ((P - 1) / 405928799) P =
          19321818016159037061311250724021617607548090886696614157910334987366532500238 from
          by decide]
      exact natCast_ne_one (by decide) (by decide) (by decide)
    · rw [castPow_eq _ _ _ (by decide),
        show powMod 300 5 ((P - 1) / 1670836401704629) P =
          19643034808648967981397807206080768497060516784825884862247505212574391305991 from
          by decide]
      exact natCast_ne_one (by decide) (by decide) (by decide)
    · rw [castPow_eq _ _ _ (by decide),
        show powMod 300 5 ((P - 1) / 13818364434197438864469338081) P =
          7740382856488830440021062471495669005558519249383073335662966997885018076746 from
          by decide]
      exact natCast_ne_one (by decide) (by decide) (by decide)

instance : Fact (Nat.Prime P) := ⟨prime_P⟩

/-! ## Claims -/

/-- C1: counterexample to the swap-gate claim.  With the selector active
and a boolean `e`, both swap-gate polynomials vanish on assignments in
which row 1 is neither row 0's `(a,b,c,d)` nor `(c,d,a,b)`: at `e = 0`
with row 0 = `(1,2,3,4)` every row 1 (here `(5,6,7,8)`) satisfies the
gate, and at `e = 1` with row 0 = `(0,0,2,2)` the foreign row 1
`(1,1,1,1)` also satisfies it.  The gate therefore does not force the
placements the claim describes. -/
theorem swap_gate_accepts_foreign_rows :
    (swapGate1 1 1 3 0 5 7 = 0 ∧ swapGate2 1 2 4 0 6 8 = 0 ∧
      ((5 : Fp), (6 : Fp), (7 : Fp), (8 : Fp)) ≠ ((1 : Fp), 2, 3, 4) ∧
      ((5 : Fp), (6 : Fp), (7 : Fp), (8 : Fp)) ≠ ((3 : Fp), 4, 1, 2)) ∧
    (swapGate1 1 0 2 1 1 1 = 0 ∧ swapGate2 1 0 2 1 1 1 = 0 ∧
      ((1 : Fp), (1 : Fp), (1 : Fp), (1 : Fp)) ≠ ((0 : Fp), 0, 2, 2) ∧
      ((1 : Fp), (1 : Fp), (1 : Fp), (1 : Fp)) ≠ ((2 : Fp), 2, 0, 0)) := by
  refine ⟨⟨by decide, by decide, by decide, by decide⟩,
    ⟨by decide, by decide, by decide, by decide⟩⟩

/-- C3: the bool gate `s·e·(1−e)` with its selector active (`s = 1`)
evaluates to zero iff the column-e value lies in `{0,1}`; in particular
`e = 2` violates the gate. -/
theorem bool_gate_iff_binary :
    (∀ e : Fp, boolGate 1 e = 0 ↔ e = 0 ∨ e = 1) ∧ boolGate 1 2 ≠ 0 := by
  constructor
  · intro e
    unfold boolGate
    rw [one_mul]
    constructor
    · intro h
      rcases mul_eq_zero.mp h with h | h
      · exact Or.inl h
      · exact Or.inr (sub_eq_zero.mp h).symm
    · rintro (rfl | rfl) <;> ring
  · decide

/-- C4: for all field values `x`, `y` assigned as the left and right
balance on row 1 of `merkle_prove_layer`, column e of row 1 receives
`x + y` in `Fp` — i.e. the mod-`P` reduction of the natural sum, which
wraps near the modulus — and the assignment satisfies the sum gate
`b + d − e = 0` on that row. -/
theorem merkle_prove_layer_sum (pH pB eH eB idx x y : Fp)
    (hx : freshVal (merkleProveLayerOps pH pB eH eB idx) 1 1 = some x)
    (hy : freshVal (merkleProveLayerOps pH pB eH eB idx) 3 1 = some y) :
    freshVal (merkleProveLayerOps pH pB eH eB idx) 4 1 = some (x + y) ∧
    (x + y).val = (x.val + y.val) % P ∧
    sumGate 1 x y (x + y) = 0 := by
  have hx' : (selectQuad pH pB eH eB idx).2.1 = x := by
    simpa [merkleProveLayerOps, freshVal] using hx
  have hy' : (selectQuad pH pB eH eB idx).2.2.2 = y := by
    simpa [merkleProveLayerOps, freshVal] using hy
  refine ⟨?_, ZMod.val_add x y, by unfold sumGate; ring⟩
  simp [merkleProveLayerOps, freshVal, hx', hy']

theorem merkle_prove_layer_sum_witness :
    freshVal (merkleProveLayerOps 1 2 3 4 0) 1 1 = some 2 ∧
    freshVal (merkleProveLayerOps 1 2 3 4 0) 3 1 = some 4 ∧
    (freshVal (merkleProveLayerOps 1 2 3 4 0) 4 1 = some ((2 : Fp) + 4) ∧
      ((2 : Fp) + 4).val = ((2 : Fp).val + (4 : Fp).val) % P ∧
      sumGate 1 2 4 ((2 : Fp) + 4) = 0) :=
  ⟨by decide, by decide, merkle_prove_layer_sum 1 2 3 4 0 2 4 (by decide) (by decide)⟩

/-- C5: the two-row region of `merkle_prove_layer` is laid out as: row 0
holds the previous hash and balance copy-constrained into columns a and
b, the sibling hash and balance assigned into columns c and d, and the
direction bit assigned into column e, with `bool` and `swap` enabled on
row 0; row 1 holds the direction-ordered quadruple in columns a-d and
the sum of its two balances in column e, with `sum` enabled on row 1. -/
theorem merkle_prove_layer_layout (pH pB eH eB idx : Fp) :
    selEnabled (merkleProveLayerOps pH pB eH eB idx) .boolSel 0 = true ∧
    selEnabled (merkleProveLayerOps pH pB eH eB idx) .swapSel 0 = true ∧
    selEnabled (merkleProveLayerOps pH pB eH eB idx) .sumSel 1 = true ∧
    copiedVal (merkleProveLayerOps pH pB eH eB idx) 0 0 = some pH ∧
    copiedVal (merkleProveLayerOps pH pB eH eB idx) 1 0 = some pB ∧
    freshVal (merkleProveLayerOps pH pB eH eB idx) 2 0 = some eH ∧
    freshVal (merkleProveLayerOps pH pB eH eB idx) 3 0 = some eB ∧
    freshVal (merkleProveLayerOps pH pB eH eB idx) 4 0 = some idx ∧
    freshVal (merkleProveLayerOps pH pB eH eB idx) 0 1 =
      some (selectQuad pH pB eH eB idx).1 ∧
    freshVal (merkleProveLayerOps pH pB eH eB idx) 1 1 =
      some (selectQuad pH pB eH eB idx).2.1 ∧
    freshVal (merkleProveLayerOps pH pB eH eB idx) 2 1 =
      some (selectQuad pH pB eH eB idx).2.2.1 ∧
    freshVal (merkleProveLayerOps pH pB eH eB idx) 3 1 =
      some (selectQuad pH pB eH eB idx).2.2.2 ∧
    freshVal (merkleProveLayerOps pH pB eH eB idx) 4 1 =
      some ((selectQuad pH pB eH eB idx).2.1 + (selectQuad pH pB eH eB idx).2.2.2) := by
  refine ⟨?_, ?_, ?_, ?_, ?_, ?_, ?_, ?_, ?_, ?_, ?_, ?_, ?_⟩ <;>
    simp [merkleProveLayerOps, selEnabled, copiedVal, freshVal]

/-- C6: `enforce_less_than` copies the final-sum cell into advice
column a at row 0, copies the total-assets value from row 3 of the
instance column into advice column b at row 0, assigns the constant `1`
into advice column c at row 0, and enables the `lt` selector on that
row. -/
theorem enforce_less_than_layout (sum : Fp) :
    copiedVal (enforceLessThanOps sum) 0 0 = some sum ∧
    instanceRowAt (enforceLessThanOps sum) 1 0 = some 3 ∧
    freshVal (enforceLessThanOps sum) 2 0 = some 1 ∧
    selEnabled (enforceLessThanOps sum) .ltSel 0 = true := by
  refine ⟨?_, ?_, ?_, ?_⟩ <;>
    simp [enforceLessThanOps, copiedVal, instanceRowAt, freshVal, selEnabled]

/-- C7: `MySpec` is parameterized by exactly 8 full rounds, 60 partial
rounds, the S-box `x ↦ x^5`, and round-constant / MDS / inverse-MDS
tables taken from the precomputed static `rate4_params` data, for the
fixed triple width 5 / rate 4 / arity 4. -/
theorem myspec_parameters :
    WIDTH = 5 ∧ RATE = 4 ∧ L = 4 ∧
    MySpec.fullRounds = .ok 8 ∧
    MySpec.partialRounds = .ok 60 ∧
    (∀ x : Fp, MySpec.sbox x = .ok (x ^ 5)) ∧
    MySpec.constants =
      .ok (rate4Params.ROUND_CONSTANTS, rate4Params.MDS, rate4Params.MDS_INV) :=
  ⟨rfl, rfl, rfl, rfl, rfl, fun _ => rfl, rfl⟩

/-- C8: `enforce_less_than` never propagates a failure of the inner
`LtChip::assign` call: whatever that call returns, the overall result is
`Ok(())`, and an error is only rendered to the printed output. -/
theorem enforce_less_than_swallows_assign_error (r : Except String Unit) :
    (enforceLessThanResult (.ok ()) r).1 = .ok () ∧
    (∀ e, enforceLessThanResult (.ok ()) (.error e) = (.ok (), ["Error: " ++ e])) := by
  refine ⟨?_, fun e => rfl⟩
  cases r with
  | ok u => cases u; rfl
  | error e => rfl

/-- C9: the row-1 witness selection of `merkle_prove_layer` applies the
identity placement exactly when the direction-bit argument equals the
field zero, and the swapped placement for every nonzero field value of
the bit — not only `1`. -/
theorem merkle_prove_layer_select (pH pB eH eB idx : Fp) :
    (idx = 0 →
      freshVal (merkleProveLayerOps pH pB eH eB idx) 0 1 = some pH ∧
      freshVal (merkleProveLayerOps pH pB eH eB idx) 1 1 = some pB ∧
      freshVal (merkleProveLayerOps pH pB eH eB idx) 2 1 = some eH ∧
      freshVal (merkleProveLayerOps pH pB eH eB idx) 3 1 = some eB) ∧
    (idx ≠ 0 →
      freshVal (merkleProveLayerOps pH pB eH eB idx) 0 1 = some eH ∧
      freshVal (merkleProveLayerOps pH pB eH eB idx) 1 1 = some eB ∧
      freshVal (merkleProveLayerOps pH pB eH eB idx) 2 1 = some pH ∧
      freshVal (merkleProveLayerOps pH pB eH eB idx) 3 1 = some pB) := by
  constructor
  · intro h
    refine ⟨?_, ?_, ?_, ?_⟩ <;> simp [merkleProveLayerOps, freshVal, selectQuad, h]
  · intro h
    refine ⟨?_, ?_, ?_, ?_⟩ <;> simp [merkleProveLayerOps, freshVal, selectQuad, h]

theorem merkle_prove_layer_select_witness :
    (freshVal (merkleProveLayerOps 10 11 12 13 2) 0 1 = some 12 ∧
      freshVal (merkleProveLayerOps 10 11 12 13 2) 1 1 = some 13 ∧
      freshVal (merkleProveLayerOps 10 11 12 13 2) 2 1 = some 10 ∧
      freshVal (merkleProveLayerOps 10 11 12 13 2) 3 1 = some 11) ∧
    (freshVal (merkleProveLayerOps 10 11 12 13 0) 0 1 = some 10 ∧
      freshVal (merkleProveLayerOps 10 11 12 13 0) 1 1 = some 11 ∧
      freshVal (merkleProveLayerOps 10 11 12 13 0) 2 1 = some 12 ∧
      freshVal (merkleProveLayerOps 10 11 12 13 0) 3 1 = some 13) :=
  ⟨(merkle_prove_layer_select 10 11 12 13 2).2 (by decide),
    (merkle_prove_layer_select 10 11 12 13 0).1 rfl⟩

/-- C10: `MySpec::secure_mds()` always panics (`unimplemented!`), while
every other method of the `Spec` implementation is total and returns for
all inputs. -/
theorem secure_mds_panics :
    MySpec.secureMds.isOk = false ∧
    MySpec.fullRounds.isOk = true ∧
    MySpec.partialRounds.isOk = true ∧
    (∀ x : Fp, (MySpec.sbox x).isOk = true) ∧
    MySpec.constants.isOk = true :=
  ⟨rfl, rfl, rfl, fun _ => rfl, rfl⟩

/-! ## Satisfiability of the `enforce_less_than` row (C2) -/

theorem val_cast_self (a : Fp) : ((a.val : ℕ) : Fp) = a :=
  ZMod.natCast_rightInverse a

theorem digits_sum : ∀ (k n : ℕ), n < 256 ^ k →
    (∑ i : Fin k, n / 256 ^ (i : ℕ) % 256 * 256 ^ (i : ℕ)) = n := by
  intro k
  induction k with
  | zero =>
    intro n hn
    interval_cases n
    simp
  | succ k ih =>
    intro n hn
    rw [Fin.sum_univ_succ]
    simp only [Fin.val_zero, pow_zero, Nat.div_one, mul_one, Fin.val_succ]
    have hrw : ∀ i : Fin k, n / 256 ^ ((i : ℕ) + 1) % 256 * 256 ^ ((i : ℕ) + 1)
        = 256 * (n / 256 / 256 ^ (i : ℕ) % 256 * 256 ^ (i : ℕ)) := by
      intro i
      have h1 : n / 256 ^ ((i : ℕ) + 1) = n / 256 / 256 ^ (i : ℕ) := by
        rw [Nat.div_div_eq_div_mul, pow_succ, mul_comm]
      rw [h1, pow_succ]
      ring
    rw [Finset.sum_congr rfl fun i _ => hrw i, ← Finset.mul_sum]
    have hdiv : n / 256 < 256 ^ k := by
      rw [Nat.div_lt_iff_lt_mul (by norm_num)]
      calc n < 256 ^ (k + 1) := hn
      _ = 256 ^ k * 256 := pow_succ 256 k
    rw [ih (n / 256) hdiv]
    omega

theorem diffVal_lt (diff : Fin 8 → ℕ) (h : ∀ i, diff i < 256) :
    diffVal diff < 2 ^ 64 := by
  have hle : diffVal diff ≤ ∑ i : Fin 8, 255 * 256 ^ (i : ℕ) := by
    unfold diffVal
    exact Finset.sum_le_sum fun i _ =>
      Nat.mul_le_mul (Nat.lt_succ_iff.mp (h i)) (le_refl _)
  have heq : (∑ i : Fin 8, 255 * 256 ^ (i : ℕ)) = 2 ^ 64 - 1 := by decide
  omega

/-- C2: the trace laid out by `enforce_less_than` — final sum in column
a, total-assets public value in column b, column c assigned `1`, `lt`
selector enabled, together with the gadget's boolean flag and 8-limb
byte decomposition — is satisfiable iff `finalSum < totalAssets`, for
operands within the gadget's 8-byte operating range.  In particular
`sum = total − 1` is satisfiable while `sum = total` and
`sum = total + 1` are not. -/
theorem enforce_row_sat_iff (s t : Fp) (hs : s.val < 2 ^ 64) (ht : t.val < 2 ^ 64) :
    enforceRowSat s t ↔ s.val < t.val := by
  have hP65 : (2 : ℕ) ^ 65 < P := by decide
  have hts : t.val ≤ s.val + 2 ^ 64 := by omega
  have hM : ((s.val + 2 ^ 64 - t.val : ℕ) : Fp) = s - t + ((ltRange : ℕ) : Fp) := by
    rw [Nat.cast_sub hts, Nat.cast_add, val_cast_self s, val_cast_self t]
    simp only [ltRange]
    push_cast
    ring
  have hMP : s.val + 2 ^ 64 - t.val < P := by
    calc s.val + 2 ^ 64 - t.val ≤ s.val + 2 ^ 64 := Nat.sub_le _ _
    _ < 2 ^ 64 + 2 ^ 64 := Nat.add_lt_add_right hs _
    _ = 2 ^ 65 := by norm_num
    _ < P := hP65
  constructor
  · rintro ⟨ltF, diff, ⟨hbyte, _hbool, heq⟩, hgate⟩
    have hltF : ltF = 1 := by
      have h1 : ltF - 1 = 0 := by
        unfold ltGate at hgate
        linear_combination hgate
      exact sub_eq_zero.mp h1
    subst hltF
    have hD : diffVal diff < 2 ^ 64 := diffVal_lt diff hbyte
    have hDe : ((diffVal diff : ℕ) : Fp) = s - t + ((ltRange : ℕ) : Fp) := by
      linear_combination -heq
    have hDM := hDe.trans hM.symm
    have hDP : diffVal diff < P := by
      calc diffVal diff < 2 ^ 64 := hD
      _ < 2 ^ 65 := by norm_num
      _ < P := hP65
    have hval := congrArg ZMod.val hDM
    rw [ZMod.val_natCast_of_lt hDP, ZMod.val_natCast_of_lt hMP] at hval
    omega
  · intro hlt
    refine ⟨1, fun i => (s.val + 2 ^ 64 - t.val) / 256 ^ (i : ℕ) % 256,
      ⟨fun i => Nat.mod_lt _ (by norm_num), by ring, ?_⟩, by unfold ltGate; ring⟩
    have hM64 : s.val + 2 ^ 64 - t.val < 256 ^ 8 := by
      have h8 : (256 : ℕ) ^ 8 = 2 ^ 64 := by norm_num
      omega
    have hsum : diffVal (fun i => (s.val + 2 ^ 64 - t.val) / 256 ^ (i : ℕ) % 256)
        = s.val + 2 ^ 64 - t.val := by
      unfold diffVal
      exact digits_sum 8 _ hM64
    rw [hsum, hM]
    ring

theorem enforce_row_sat_iff_witness :
    ((99 : Fp).val < 2 ^ 64 ∧ (100 : Fp).val < 2 ^ 64) ∧
    (enforceRowSat 99 100 ↔ (99 : Fp).val < (100 : Fp).val) :=
  ⟨⟨by decide, by decide⟩, enforce_row_sat_iff 99 100 (by decide) (by decide)⟩
